import Mathlib

/-!
Verification development for the Parameter-Visualiser repository.

The backend (src/backend/equipment) ingests a CSV file of chemical-process
equipment, computes summary statistics, stores the five most recent uploads,
and renders a PDF report.  This file gives a shallow embedding of that logic:

* `upload_csv` embeds `EquipmentDatasetViewSet.upload_csv` (views.py, lines
  35-122): file-presence check, `.csv` extension check, required-column
  validation, pandas column means, `value_counts` type distribution, creation
  of the `EquipmentDataset` row and its `Equipment` rows, and the
  keep-the-last-five pruning pass.
* `history_list`, `get_dataset`, `equipment_items`, `retrieve_dataset` embed
  the read paths (views.py `history_list` / `get_queryset`, serializers.py,
  and the model `Meta.ordering` declarations from models.py).
* `generate_pdf` embeds the data content of the PDF report built in
  `generate_pdf` (views.py, lines 144-266); styling is out of scope, the
  table cell strings are modelled exactly.

Python floats are modelled as exact rationals; the pandas `NaN` produced by
the mean of an empty column is modelled as `none : Option ℚ`.  CSV numeric
cells are carried as their raw text; `parseFloat` models Python/pandas
numeric parsing restricted to plain decimal literals (optional sign, digits,
optional fractional part) — scientific notation, underscores in numerals and
blank cells (pandas NA handling) are outside the model.
-/

namespace ParamVis

/-- Value of a list of decimal digit characters read as a natural number. -/
def natOfDigits (l : List Char) : Nat :=
  l.foldl (fun a c => 10 * a + (c.toNat - 48)) 0

/-- Check that every character of `l` is a decimal digit. -/
def allDigits (l : List Char) : Bool :=
  l.all Char.isDigit

/-- Parse an unsigned decimal literal (`digits` or `digits.digits`, where one
of the two digit groups may be empty but not both) into an exact rational.
The value is built with `mkRat` so no rational division is involved. -/
def parseUnsignedFloat (l : List Char) : Option ℚ :=
  match l.splitOn '.' with
  | [ip] =>
    if allDigits ip ∧ ip ≠ [] then some (mkRat (natOfDigits ip) 1) else none
  | [ip, fp] =>
    if allDigits ip ∧ allDigits fp ∧ (ip ≠ [] ∨ fp ≠ []) then
      some (mkRat (natOfDigits ip * 10 ^ fp.length + natOfDigits fp) (10 ^ fp.length))
    else none
  | _ => none

/-- Model of Python `float(cell)` / pandas numeric coercion of a CSV cell,
restricted to plain decimal literals with an optional leading sign. -/
def parseFloat (s : String) : Option ℚ :=
  match s.data with
  | '-' :: rest => (parseUnsignedFloat rest).map (fun q => -q)
  | '+' :: rest => parseUnsignedFloat rest
  | l => parseUnsignedFloat l

/-- Numeric value of a cell that is known to parse (defaults to 0 otherwise;
every use is guarded by a successful parse of the whole column). -/
def floatVal (s : String) : ℚ :=
  (parseFloat s).getD 0

/-- Concatenation of the raw cell texts of a column, as produced by summing a
pandas object-dtype column of strings; it appears in the error message of
`colMean` on a non-numeric column. -/
def concatAll : List String → String
  | [] => ""
  | s :: rest => s ++ concatAll rest

/-- Mean of a fully numeric column: `NaN` (modelled `none`) for an empty
column, otherwise the sum of the values divided by the row count, exactly as
`float(df[col].mean())` computes it (views.py, lines 70-72). -/
def meanOfCol (cells : List String) : Option ℚ :=
  if cells.length = 0 then none
  else some ((cells.map floatVal).sum / (cells.length : ℚ))

/-- Model of `df[col].mean()`: if every cell parses numerically the column is
a float column and the mean is returned (`NaN` when empty); otherwise the
column has object dtype and pandas raises a `TypeError` naming the
concatenated column text, which the view's `except` block catches. -/
def colMean (cells : List String) : Except String (Option ℚ) :=
  if cells.all (fun c => (parseFloat c).isSome) then .ok (meanOfCol cells)
  else .error ("Could not convert string '" ++ concatAll cells ++ "' to numeric")

/-- Add one occurrence of label `t` to an association list of counts. -/
def bumpCount (t : String) : List (String × Nat) → List (String × Nat)
  | [] => [(t, 1)]
  | (s, n) :: rest =>
    if s = t then (s, n + 1) :: rest else (s, n) :: bumpCount t rest

/-- Model of `df['Type'].value_counts().to_dict()` (views.py, line 75): an
association list mapping each distinct label to its number of occurrences.
Keys are kept in first-occurrence order; the claims about this mapping only
constrain its key set and its counts, as Python dict comparison does. -/
def typeDistribution (labels : List String) : List (String × Nat) :=
  labels.foldl (fun d t => bumpCount t d) []

/-- Model of `models.EquipmentDataset`: the persisted dataset row with its
derived aggregates. `uploaded_at` is an abstract timestamp (`auto_now_add`);
the `avg_*` float fields are `Option ℚ` with `none` standing for `NaN`;
`equipment_types` is the stored JSON mapping. -/
structure EquipmentDataset where
  id : Nat
  name : String
  uploaded_at : Nat
  total_count : Nat
  avg_flowrate : Option ℚ
  avg_pressure : Option ℚ
  avg_temperature : Option ℚ
  equipment_types : List (String × Nat)
deriving DecidableEq

/-- Model of `models.Equipment`: one equipment row, owned by the dataset with
id `dataset` (the foreign key). -/
structure Equipment where
  dataset : Nat
  equipment_name : String
  type : String
  flowrate : ℚ
  pressure : ℚ
  temperature : ℚ
deriving DecidableEq

/-- The persisted state: the two database tables plus the id sequence and the
clock that produces `auto_now_add` timestamps.  `datasets` is kept in the
model `Meta` ordering `-uploaded_at` (most recent first), which is the order
every queryset in views.py reads it in; `Store.wf` states that invariant. -/
structure Store where
  datasets : List EquipmentDataset
  equipments : List Equipment
  nextId : Nat
  clock : Nat
deriving DecidableEq

/-- One data row of the uploaded CSV, carrying the raw cell text of the five
required columns.  Extra columns are never read by the view and are omitted;
when a required column is absent from the header the view rejects the file
before reading any row, so modelling rows as total records is faithful. -/
structure CsvRow where
  equipment_name : String
  type : String
  flowrate : String
  pressure : String
  temperature : String
deriving DecidableEq

/-- An uploaded file: its name, the CSV header labels, and the data rows. -/
structure CsvFile where
  filename : String
  columns : List String
  rows : List CsvRow
deriving DecidableEq

/-- The required header labels (views.py, line 61). -/
def required_columns : List String :=
  ["Equipment Name", "Type", "Flowrate", "Pressure", "Temperature"]

/-- Model of Python `str.endswith`, computed on the character lists so that
it evaluates inside the kernel. -/
def strEndsWith (s suffix : String) : Bool :=
  suffix.data.isSuffixOf s.data

/-- Outcome of the upload endpoint: HTTP 201 with the created dataset, or
HTTP 400 with an error message. -/
inductive UploadResult where
  | created (ds : EquipmentDataset)
  | badRequest (msg : String)
deriving DecidableEq

/-- The `Equipment` row built for one CSV row (views.py, lines 93-102),
given that the numeric coercions succeed. -/
def mkEquip (dsId : Nat) (r : CsvRow) : Equipment :=
  { dataset := dsId, equipment_name := r.equipment_name, type := r.type,
    flowrate := floatVal r.flowrate, pressure := floatVal r.pressure,
    temperature := floatVal r.temperature }

/-- Model of `float(row[col])`: Python raises `ValueError` naming the value
when the text does not parse as a float. -/
def pyFloat (cell : String) : Except String ℚ :=
  match parseFloat cell with
  | some v => .ok v
  | none => .error ("could not convert string to float: '" ++ cell ++ "'")

/-- The loop of views.py lines 91-102: build the `Equipment` objects row by
row, aborting with the exception of the first failing coercion. -/
def buildEquipment (dsId : Nat) : List CsvRow → Except String (List Equipment)
  | [] => .ok []
  | r :: rest =>
    match pyFloat r.flowrate, pyFloat r.pressure, pyFloat r.temperature with
    | .ok fv, .ok pv, .ok tv =>
      match buildEquipment dsId rest with
      | .ok objs =>
        .ok ({ dataset := dsId, equipment_name := r.equipment_name,
               type := r.type, flowrate := fv, pressure := pv,
               temperature := tv } :: objs)
      | .error e => .error e
    | .error e, _, _ => .error e
    | _, .error e, _ => .error e
    | _, _, .error e => .error e

/-- The retention pass of views.py lines 107-112: `objects.all()` is ordered
`-uploaded_at`, so `all_datasets[5:]` is everything after the five most
recent; each of those is deleted, cascading to its `Equipment` rows
(`on_delete=CASCADE` in models.py). -/
def pruneOldDatasets (s : Store) : Store :=
  if s.datasets.length > 5 then
    { s with datasets := s.datasets.take 5,
             equipments := s.equipments.filter
               (fun e => (s.datasets.drop 5).all (fun d => d.id != e.dataset)) }
  else s

/-- The dataset record created on the success path (views.py, lines 79-88). -/
def mkDataset (s : Store) (f : CsvFile) : EquipmentDataset :=
  { id := s.nextId, name := f.filename, uploaded_at := s.clock,
    total_count := f.rows.length,
    avg_flowrate := meanOfCol (f.rows.map (·.flowrate)),
    avg_pressure := meanOfCol (f.rows.map (·.pressure)),
    avg_temperature := meanOfCol (f.rows.map (·.temperature)),
    equipment_types := typeDistribution (f.rows.map (·.type)) }

/-- The store after the dataset row and all equipment rows of `f` have been
inserted, before the retention pass. -/
def ingestState (s : Store) (f : CsvFile) : Store :=
  { datasets := mkDataset s f :: s.datasets,
    equipments := s.equipments ++ f.rows.map (mkEquip s.nextId),
    nextId := s.nextId + 1,
    clock := s.clock + 1 }

/-- Shallow embedding of `EquipmentDatasetViewSet.upload_csv` (views.py,
lines 35-122), step by step in source order: missing-file check, extension
check, required-column check, the three column means (computed before any
database write; a non-numeric column raises there and is caught), creation
of the dataset row, construction and bulk insert of the equipment rows, and
the retention pass.  There is no transaction in the source: a failure in the
equipment-building loop would leave the already-created dataset row behind,
which the intermediate state `s1` models faithfully. -/
def upload_csv (s : Store) (file : Option CsvFile) : UploadResult × Store :=
  match file with
  | none => (.badRequest "No file provided", s)
  | some f =>
    if strEndsWith f.filename ".csv" = false then
      (.badRequest "File must be a CSV", s)
    else if required_columns.all (fun c => f.columns.contains c) = false then
      (.badRequest ("CSV must contain columns: " ++
         String.intercalate ", " required_columns), s)
    else
      match colMean (f.rows.map (·.flowrate)) with
      | .error e => (.badRequest ("Error processing CSV: " ++ e), s)
      | .ok avgF =>
        match colMean (f.rows.map (·.pressure)) with
        | .error e => (.badRequest ("Error processing CSV: " ++ e), s)
        | .ok avgP =>
          match colMean (f.rows.map (·.temperature)) with
          | .error e => (.badRequest ("Error processing CSV: " ++ e), s)
          | .ok avgT =>
            let ds : EquipmentDataset :=
              { id := s.nextId, name := f.filename, uploaded_at := s.clock,
                total_count := f.rows.length,
                avg_flowrate := avgF, avg_pressure := avgP,
                avg_temperature := avgT,
                equipment_types := typeDistribution (f.rows.map (·.type)) }
            let s1 : Store :=
              { s with datasets := ds :: s.datasets,
                       nextId := s.nextId + 1, clock := s.clock + 1 }
            match buildEquipment ds.id f.rows with
            | .error e => (.badRequest ("Error processing CSV: " ++ e), s1)
            | .ok objs =>
              let s2 : Store := { s1 with equipments := s1.equipments ++ objs }
              (.created ds, pruneOldDatasets s2)

/-- Model of the `history_list` view and of `get_queryset` for the `list`
action: `EquipmentDataset.objects.all().order_by('-uploaded_at')[:5]`.
Under the `Store` representation that queryset is the first five entries. -/
def history_list (s : Store) : List EquipmentDataset :=
  s.datasets.take 5

/-- Model of `get_object` / get-by-id on the dataset table. -/
def get_dataset (s : Store) (i : Nat) : Option EquipmentDataset :=
  s.datasets.find? (fun d => d.id == i)

/-- Sort key of an equipment name: its sequence of code points.  The database
collation orders the `equipment_name` column lexicographically by code
point; `≤` on `List Nat` is exactly that order. -/
def nameKey (s : String) : List Nat :=
  s.data.map Char.toNat

/-- The order used by the model `Meta` declaration
`ordering = ['equipment_name']` of `Equipment` (models.py, lines 35-36). -/
def nameOrder (a b : Equipment) : Prop :=
  nameKey a.equipment_name ≤ nameKey b.equipment_name

instance : DecidableRel nameOrder :=
  fun _ _ => inferInstanceAs (Decidable (_ ≤ _))

/-- Model of `dataset.equipment_items.all()`: the related manager returns the
dataset's equipment rows in the model `Meta` ordering `['equipment_name']`,
in other words sorted alphabetically by name, not in upload row order. -/
def equipment_items (s : Store) (i : Nat) : List Equipment :=
  List.insertionSort nameOrder (s.equipments.filter (fun e => e.dataset == i))

/-- Model of retrieving one dataset with its serialized `equipment_items`
(serializers.py, lines 12-23). -/
def retrieve_dataset (s : Store) (i : Nat) :
    Option (EquipmentDataset × List Equipment) :=
  (get_dataset s i).map (fun ds => (ds, equipment_items s i))

/-- Python string slicing `s[:n]` by code points. -/
def pySlice (n : Nat) (s : String) : String :=
  String.mk (s.data.take n)

/-- Round a rational to the nearest integer, ties to even, which is how
Python's fixed-point float formatting rounds. -/
def rndHalfEven (q : ℚ) : ℤ :=
  let n : ℤ := ⌊q⌋
  let r : ℚ := q - (n : ℚ)
  if 2 * r < 1 then n
  else if 1 < 2 * r then n + 1
  else if n % 2 = 0 then n else n + 1

/-- Left-pad a digit string with zeros to width `w`. -/
def padLeftZeros (w : Nat) (s : String) : String :=
  String.mk (List.replicate (w - s.length) '0') ++ s

/-- Model of the Python format `f"{x:.dpf}"` on an exact rational: round to
`dp` decimal places (ties to even) and render with exactly `dp` fractional
digits. -/
def fmtFixed (dp : Nat) (q : ℚ) : String :=
  let n : ℤ := rndHalfEven (q * (10 : ℚ) ^ dp)
  let sgn : String := if n < 0 then "-" else ""
  let m : Nat := n.natAbs
  if dp = 0 then sgn ++ toString m
  else sgn ++ toString (m / 10 ^ dp) ++ "." ++ padLeftZeros dp (toString (m % 10 ^ dp))

/-- Formatting of a stored float field: `NaN` renders as `"nan"`. -/
def fmtPF (dp : Nat) : Option ℚ → String
  | none => "nan"
  | some q => fmtFixed dp q

/-- The display row built for one equipment record in the PDF's details
table (views.py, lines 243-249): name truncated to 20 characters, type to
15, the three numeric values formatted to one decimal place. -/
def pdfRow (e : Equipment) : List String :=
  [pySlice 20 e.equipment_name, pySlice 15 e.type,
   fmtFixed 1 e.flowrate, fmtFixed 1 e.pressure, fmtFixed 1 e.temperature]

/-- Data content of the generated PDF: the four table sections in order
(metadata, summary statistics, type distribution, equipment details), each
with its header rows, exactly the cell strings views.py lines 168-261
assemble.  Layout and styling are presentation and are not modelled. -/
structure PdfReport where
  title : String
  info : List (List String)
  stats : List (List String)
  type_rows : List (List String)
  equipment_rows : List (List String)
deriving DecidableEq

/-- Shallow embedding of `generate_pdf` (views.py, lines 144-266).  It only
reads the store; the returned store is threaded unchanged, which is the frame
fact the claims about report generation assert. -/
def generate_pdf (s : Store) (i : Nat) : Option PdfReport × Store :=
  match get_dataset s i with
  | none => (none, s)
  | some ds =>
    (some { title := "Chemical Equipment Analysis Report",
            info := [["Dataset Name:", ds.name],
                     ["Upload Date:", toString ds.uploaded_at],
                     ["Total Equipment:", toString ds.total_count]],
            stats := [["Metric", "Average Value"],
                      ["Flowrate", fmtPF 2 ds.avg_flowrate],
                      ["Pressure", fmtPF 2 ds.avg_pressure],
                      ["Temperature", fmtPF 2 ds.avg_temperature]],
            type_rows := ["Equipment Type", "Count"] ::
              ds.equipment_types.map (fun p => [p.1, toString p.2]),
            equipment_rows := ["Name", "Type", "Flowrate", "Pressure", "Temp"] ::
              ((equipment_items s i).take 20).map pdfRow },
     s)

/-- Well-formedness of the store representation: `datasets` is in strictly
descending timestamp order (the `Meta` ordering together with the strictly
monotone `auto_now_add` clock), all timestamps are in the past of the clock,
and all primary keys and foreign keys are below the id sequence. -/
def Store.wf (s : Store) : Prop :=
  s.datasets.Pairwise (fun a b => b.uploaded_at < a.uploaded_at) ∧
  (∀ d ∈ s.datasets, d.uploaded_at < s.clock) ∧
  (∀ d ∈ s.datasets, d.id < s.nextId) ∧
  (∀ e ∈ s.equipments, e.dataset < s.nextId)

/-- Aggregate consistency: every stored dataset's `total_count` equals the
number of its stored equipment rows. -/
def Store.consistent (s : Store) : Prop :=
  ∀ d ∈ s.datasets,
    (s.equipments.filter (fun e => e.dataset == d.id)).length = d.total_count

instance (s : Store) : Decidable s.consistent :=
  inferInstanceAs (Decidable (∀ d ∈ s.datasets,
    (s.equipments.filter (fun e => e.dataset == d.id)).length = d.total_count))

/-- The empty store. -/
def emptyStore : Store :=
  { datasets := [], equipments := [], nextId := 0, clock := 0 }

/-- The two-row scenario CSV from the specification. -/
def pumpValveCsv : CsvFile :=
  { filename := "equipment.csv", columns := required_columns,
    rows := [{ equipment_name := "Pump1", type := "Pump", flowrate := "10.0",
               pressure := "5.0", temperature := "20.0" },
             { equipment_name := "Valve1", type := "Valve", flowrate := "0.0",
               pressure := "2.0", temperature := "15.0" }] }

/-- A CSV file with all required columns and zero data rows. -/
def headerOnlyCsv : CsvFile :=
  { filename := "empty.csv", columns := required_columns, rows := [] }

/-- A CSV file whose header is missing most required columns. -/
def badColumnsCsv : CsvFile :=
  { filename := "bad.csv", columns := ["Type"], rows := [] }

/-- A CSV file whose single row has a non-numeric flow rate cell. -/
def badCellRow : CsvRow :=
  { equipment_name := "Pump1", type := "Pump", flowrate := "abc",
    pressure := "5.0", temperature := "20.0" }

/-- The CSV file containing `badCellRow`. -/
def badCellCsv : CsvFile :=
  { filename := "cells.csv", columns := required_columns, rows := [badCellRow] }

/-- A stored dataset with zero rows, used to exercise the reporting path. -/
def demoDataset : EquipmentDataset :=
  { id := 1, name := "a.csv", uploaded_at := 3, total_count := 0,
    avg_flowrate := none, avg_pressure := none, avg_temperature := none,
    equipment_types := [] }

/-- A store holding `demoDataset` and no equipment rows. -/
def demoStore : Store :=
  { datasets := [demoDataset], equipments := [], nextId := 2, clock := 4 }

/-- A stored dataset with one row. -/
def demoDatasetOne : EquipmentDataset :=
  { id := 1, name := "b.csv", uploaded_at := 3, total_count := 1,
    avg_flowrate := none, avg_pressure := none, avg_temperature := none,
    equipment_types := [("Pump", 1)] }

/-- The single equipment row of `demoDatasetOne`. -/
def demoEquip : Equipment :=
  { dataset := 1, equipment_name := "Pump1", type := "Pump",
    flowrate := 5, pressure := 3, temperature := 7 }

/-- A store holding `demoDatasetOne` together with its equipment row. -/
def demoStoreOne : Store :=
  { datasets := [demoDatasetOne], equipments := [demoEquip], nextId := 2, clock := 4 }

/-- The report content generated for `demoDataset` in `demoStore`. -/
def demoReport : PdfReport :=
  { title := "Chemical Equipment Analysis Report",
    info := [["Dataset Name:", "a.csv"], ["Upload Date:", "3"],
             ["Total Equipment:", "0"]],
    stats := [["Metric", "Average Value"], ["Flowrate", "nan"],
              ["Pressure", "nan"], ["Temperature", "nan"]],
    type_rows := [["Equipment Type", "Count"]],
    equipment_rows := [["Name", "Type", "Flowrate", "Pressure", "Temp"]] }

/-- The report content generated for `demoDatasetOne` in `demoStoreOne`. -/
def demoReportOne : PdfReport :=
  { title := "Chemical Equipment Analysis Report",
    info := [["Dataset Name:", "b.csv"], ["Upload Date:", "3"],
             ["Total Equipment:", "1"]],
    stats := [["Metric", "Average Value"], ["Flowrate", "nan"],
              ["Pressure", "nan"], ["Temperature", "nan"]],
    type_rows := [["Equipment Type", "Count"], ["Pump", "1"]],
    equipment_rows := ["Name", "Type", "Flowrate", "Pressure", "Temp"] ::
      [pdfRow demoEquip] }

/-! Lemmas about the ingestion pipeline. -/

theorem floatVal_eq {s : String} {q : ℚ} (h : parseFloat s = some q) :
    floatVal s = q := by
  simp [floatVal, h]

theorem pyFloat_ok {c : String} (h : (parseFloat c).isSome = true) :
    pyFloat c = .ok (floatVal c) := by
  rcases Option.isSome_iff_exists.mp h with ⟨v, hv⟩
  simp [pyFloat, floatVal, hv]

theorem colMean_ok_of_all {cells : List String}
    (h : cells.all (fun c => (parseFloat c).isSome) = true) :
    colMean cells = .ok (meanOfCol cells) := by
  simp [colMean, h]

theorem colMean_ok_elim {cells : List String} {v : Option ℚ}
    (h : colMean cells = .ok v) :
    cells.all (fun c => (parseFloat c).isSome) = true ∧ v = meanOfCol cells := by
  by_cases hall : cells.all (fun c => (parseFloat c).isSome) = true
  · simp [colMean, hall] at h
    exact ⟨hall, h.symm⟩
  · simp [colMean, hall] at h

theorem rows_parse_of_colMeans {f : CsvFile} {vF vP vT : Option ℚ}
    (hF : colMean (f.rows.map (·.flowrate)) = .ok vF)
    (hP : colMean (f.rows.map (·.pressure)) = .ok vP)
    (hT : colMean (f.rows.map (·.temperature)) = .ok vT) :
    ∀ r ∈ f.rows, (parseFloat r.flowrate).isSome = true ∧
      (parseFloat r.pressure).isSome = true ∧
      (parseFloat r.temperature).isSome = true := by
  intro r hr
  refine ⟨?_, ?_, ?_⟩
  · have := List.all_eq_true.mp (colMean_ok_elim hF).1 _
      (List.mem_map_of_mem (·.flowrate) hr)
    simpa using this
  · have := List.all_eq_true.mp (colMean_ok_elim hP).1 _
      (List.mem_map_of_mem (·.pressure) hr)
    simpa using this
  · have := List.all_eq_true.mp (colMean_ok_elim hT).1 _
      (List.mem_map_of_mem (·.temperature) hr)
    simpa using this

theorem meanOfCol_of_ne_nil {cells : List String} (h : cells ≠ []) :
    meanOfCol cells = some ((cells.map floatVal).sum / (cells.length : ℚ)) := by
  simp [meanOfCol, h]

theorem buildEquipment_ok {dsId : Nat} {rows : List CsvRow}
    (h : ∀ r ∈ rows, (parseFloat r.flowrate).isSome = true ∧
        (parseFloat r.pressure).isSome = true ∧
        (parseFloat r.temperature).isSome = true) :
    buildEquipment dsId rows = .ok (rows.map (mkEquip dsId)) := by
  induction rows with
  | nil => simp [buildEquipment]
  | cons r rest ih =>
    obtain ⟨hf, hp, ht⟩ := h r (List.mem_cons_self r rest)
    simp only [buildEquipment, pyFloat_ok hf, pyFloat_ok hp, pyFloat_ok ht,
      ih (fun x hx => h x (List.mem_cons_of_mem r hx)), List.map_cons]
    rfl

theorem upload_ok (s : Store) (f : CsvFile)
    (hcsv : strEndsWith f.filename ".csv" = true)
    (hcols : required_columns.all (fun c => f.columns.contains c) = true)
    (hrows : ∀ r ∈ f.rows, (parseFloat r.flowrate).isSome = true ∧
        (parseFloat r.pressure).isSome = true ∧
        (parseFloat r.temperature).isSome = true) :
    upload_csv s (some f) =
      (.created (mkDataset s f), pruneOldDatasets (ingestState s f)) := by
  have hf : (f.rows.map (·.flowrate)).all (fun c => (parseFloat c).isSome) = true := by
    rw [List.all_eq_true]
    intro c hc
    rcases List.mem_map.mp hc with ⟨r, hr, rfl⟩
    exact (hrows r hr).1
  have hp : (f.rows.map (·.pressure)).all (fun c => (parseFloat c).isSome) = true := by
    rw [List.all_eq_true]
    intro c hc
    rcases List.mem_map.mp hc with ⟨r, hr, rfl⟩
    exact (hrows r hr).2.1
  have ht : (f.rows.map (·.temperature)).all (fun c => (parseFloat c).isSome) = true := by
    rw [List.all_eq_true]
    intro c hc
    rcases List.mem_map.mp hc with ⟨r, hr, rfl⟩
    exact (hrows r hr).2.2
  simp only [upload_csv, hcsv, hcols, colMean_ok_of_all hf, colMean_ok_of_all hp,
    colMean_ok_of_all ht, buildEquipment_ok hrows]
  simp [mkDataset, ingestState]

theorem upload_created_elim {s : Store} {file : Option CsvFile}
    {ds : EquipmentDataset} (h : (upload_csv s file).1 = .created ds) :
    ∃ f, file = some f ∧
      strEndsWith f.filename ".csv" = true ∧
      required_columns.all (fun c => f.columns.contains c) = true ∧
      (∀ r ∈ f.rows, (parseFloat r.flowrate).isSome = true ∧
          (parseFloat r.pressure).isSome = true ∧
          (parseFloat r.temperature).isSome = true) ∧
      ds = mkDataset s f ∧
      (upload_csv s file).2 = pruneOldDatasets (ingestState s f) := by
  cases file with
  | none => simp [upload_csv] at h
  | some f =>
    cases h1 : strEndsWith f.filename ".csv" with
    | false => simp [upload_csv, h1] at h
    | true =>
    cases h2 : required_columns.all (fun c => f.columns.contains c) with
    | false => simp only [upload_csv, h1, h2] at h; simp at h
    | true =>
    cases hF : colMean (f.rows.map (·.flowrate)) with
    | error e => simp only [upload_csv, h1, h2, hF] at h; simp at h
    | ok vF =>
    cases hP : colMean (f.rows.map (·.pressure)) with
    | error e => simp only [upload_csv, h1, h2, hF, hP] at h; simp at h
    | ok vP =>
    cases hT : colMean (f.rows.map (·.temperature)) with
    | error e => simp only [upload_csv, h1, h2, hF, hP, hT] at h; simp at h
    | ok vT =>
    have hrows := rows_parse_of_colMeans hF hP hT
    have heq := upload_ok s f h1 h2 hrows
    rw [heq] at h
    simp only [UploadResult.created.injEq] at h
    exact ⟨f, rfl, h1, h2, hrows, h.symm, by rw [heq]⟩

/-- C1: for every valid CSV input with at least one row, ingestion sets
total_count to the row count and each avg field to the arithmetic mean (sum
divided by row count) of its column; in particular the two-row Pump/Valve
scenario yields total_count 2, avg_flowrate 5.0, avg_pressure 3.5,
avg_temperature 17.5 and the type distribution Pump 1, Valve 1. -/
theorem c1_ingestion_statistics :
    (∀ (s : Store) (f : CsvFile),
      strEndsWith f.filename ".csv" = true →
      required_columns.all (fun c => f.columns.contains c) = true →
      (∀ r ∈ f.rows, (parseFloat r.flowrate).isSome = true ∧
          (parseFloat r.pressure).isSome = true ∧
          (parseFloat r.temperature).isSome = true) →
      f.rows ≠ [] →
      ∃ ds, (upload_csv s (some f)).1 = .created ds ∧
        ds.total_count = f.rows.length ∧
        ds.avg_flowrate =
          some (((f.rows.map (·.flowrate)).map floatVal).sum / (f.rows.length : ℚ)) ∧
        ds.avg_pressure =
          some (((f.rows.map (·.pressure)).map floatVal).sum / (f.rows.length : ℚ)) ∧
        ds.avg_temperature =
          some (((f.rows.map (·.temperature)).map floatVal).sum / (f.rows.length : ℚ)) ∧
        ds.equipment_types = typeDistribution (f.rows.map (·.type))) ∧
    (∃ ds, (upload_csv emptyStore (some pumpValveCsv)).1 = .created ds ∧
      ds.total_count = 2 ∧
      ds.avg_flowrate = some 5 ∧
      ds.avg_pressure = some ((7 : ℚ) / 2) ∧
      ds.avg_temperature = some ((35 : ℚ) / 2) ∧
      ds.equipment_types = [("Pump", 1), ("Valve", 1)]) := by
  constructor
  · intro s f hcsv hcols hrows hne
    rw [upload_ok s f hcsv hcols hrows]
    refine ⟨mkDataset s f, rfl, rfl, ?_, ?_, ?_, rfl⟩
    · show meanOfCol (f.rows.map (·.flowrate)) = _
      rw [meanOfCol_of_ne_nil (by simpa using hne)]
      simp
    · show meanOfCol (f.rows.map (·.pressure)) = _
      rw [meanOfCol_of_ne_nil (by simpa using hne)]
      simp
    · show meanOfCol (f.rows.map (·.temperature)) = _
      rw [meanOfCol_of_ne_nil (by simpa using hne)]
      simp
  · rw [upload_ok emptyStore pumpValveCsv (by decide) (by decide) (by decide)]
    refine ⟨mkDataset emptyStore pumpValveCsv, rfl, rfl, ?_, ?_, ?_, by decide⟩
    · show meanOfCol ["10.0", "0.0"] = some 5
      have h1 : floatVal "10.0" = 10 := floatVal_eq (by decide)
      have h2 : floatVal "0.0" = 0 := floatVal_eq (by decide)
      simp [meanOfCol, h1, h2]
      norm_num
    · show meanOfCol ["5.0", "2.0"] = some ((7 : ℚ) / 2)
      have h1 : floatVal "5.0" = 5 := floatVal_eq (by decide)
      have h2 : floatVal "2.0" = 2 := floatVal_eq (by decide)
      simp [meanOfCol, h1, h2]
      norm_num
    · show meanOfCol ["20.0", "15.0"] = some ((35 : ℚ) / 2)
      have h1 : floatVal "20.0" = 20 := floatVal_eq (by decide)
      have h2 : floatVal "15.0" = 15 := floatVal_eq (by decide)
      simp [meanOfCol, h1, h2]
      norm_num

/-- Witness for C1: the Pump/Valve scenario satisfies every hypothesis of the
general statement and the instantiated conclusion holds. -/
theorem c1_ingestion_statistics_witness :
    strEndsWith pumpValveCsv.filename ".csv" = true ∧
    required_columns.all (fun c => pumpValveCsv.columns.contains c) = true ∧
    pumpValveCsv.rows ≠ [] ∧
    (∃ ds, (upload_csv emptyStore (some pumpValveCsv)).1 = .created ds ∧
      ds.total_count = pumpValveCsv.rows.length ∧
      ds.avg_flowrate =
        some (((pumpValveCsv.rows.map (·.flowrate)).map floatVal).sum /
          (pumpValveCsv.rows.length : ℚ)) ∧
      ds.avg_pressure =
        some (((pumpValveCsv.rows.map (·.pressure)).map floatVal).sum /
          (pumpValveCsv.rows.length : ℚ)) ∧
      ds.avg_temperature =
        some (((pumpValveCsv.rows.map (·.temperature)).map floatVal).sum /
          (pumpValveCsv.rows.length : ℚ)) ∧
      ds.equipment_types = typeDistribution (pumpValveCsv.rows.map (·.type))) :=
  ⟨by decide, by decide, by decide,
    c1_ingestion_statistics.1 emptyStore pumpValveCsv (by decide) (by decide)
      (by decide) (by decide)⟩

/-- C4 counterexample: ingesting a valid CSV with zero data rows succeeds,
but the stored averages are the pandas mean of an empty column, which is NaN
(modelled `none`), not 0.0 as the claim states. -/
theorem c4_counterexample :
    (upload_csv emptyStore (some headerOnlyCsv)).1 =
      .created { id := 0, name := "empty.csv", uploaded_at := 0, total_count := 0,
                 avg_flowrate := none, avg_pressure := none,
                 avg_temperature := none, equipment_types := [] } ∧
    (none : Option ℚ) ≠ some 0 :=
  ⟨by decide, by decide⟩

/-- C4 (amended): for an input with zero data rows, ingestion succeeds with no
error, but each avg field is NaN (the pandas mean of an empty column,
modelled `none`), not 0.0. -/
theorem c4_zero_rows_nan (s : Store) (f : CsvFile)
    (hcsv : strEndsWith f.filename ".csv" = true)
    (hcols : required_columns.all (fun c => f.columns.contains c) = true)
    (hnil : f.rows = []) :
    ∃ ds, (upload_csv s (some f)).1 = .created ds ∧
      ds.total_count = 0 ∧ ds.avg_flowrate = none ∧
      ds.avg_pressure = none ∧ ds.avg_temperature = none := by
  have hrows : ∀ r ∈ f.rows, (parseFloat r.flowrate).isSome = true ∧
      (parseFloat r.pressure).isSome = true ∧
      (parseFloat r.temperature).isSome = true := by
    simp [hnil]
  rw [upload_ok s f hcsv hcols hrows]
  exact ⟨mkDataset s f, rfl, by simp [mkDataset, hnil],
    by simp [mkDataset, hnil, meanOfCol], by simp [mkDataset, hnil, meanOfCol],
    by simp [mkDataset, hnil, meanOfCol]⟩

/-- Witness for C4: the header-only CSV satisfies the hypotheses of the
amended statement and the instantiated conclusion holds. -/
theorem c4_zero_rows_nan_witness :
    strEndsWith headerOnlyCsv.filename ".csv" = true ∧
    required_columns.all (fun c => headerOnlyCsv.columns.contains c) = true ∧
    headerOnlyCsv.rows = [] ∧
    (∃ ds, (upload_csv emptyStore (some headerOnlyCsv)).1 = .created ds ∧
      ds.total_count = 0 ∧ ds.avg_flowrate = none ∧
      ds.avg_pressure = none ∧ ds.avg_temperature = none) :=
  ⟨by decide, by decide, rfl,
    c4_zero_rows_nan emptyStore headerOnlyCsv (by decide) (by decide) rfl⟩

/-! Lemmas about the type distribution. -/

theorem sum_bumpCount (t : String) (d : List (String × Nat)) :
    ((bumpCount t d).map Prod.snd).sum = (d.map Prod.snd).sum + 1 := by
  induction d with
  | nil => simp [bumpCount]
  | cons p rest ih =>
    obtain ⟨s, n⟩ := p
    by_cases hs : s = t
    · simp [bumpCount, hs]
      omega
    · simp [bumpCount, hs, ih]
      omega

theorem sum_foldl_bump (l : List String) :
    ∀ d, ((l.foldl (fun d t => bumpCount t d) d).map Prod.snd).sum
      = (d.map Prod.snd).sum + l.length := by
  induction l with
  | nil => intro d; simp
  | cons t rest ih =>
    intro d
    simp only [List.foldl_cons]
    rw [ih (bumpCount t d), sum_bumpCount]
    simp only [List.length_cons]
    omega

theorem typeDistribution_sum (l : List String) :
    ((typeDistribution l).map Prod.snd).sum = l.length := by
  simpa [typeDistribution] using sum_foldl_bump l []

theorem mem_keys_bumpCount {x t : String} {d : List (String × Nat)} :
    x ∈ (bumpCount t d).map Prod.fst ↔ x = t ∨ x ∈ d.map Prod.fst := by
  induction d with
  | nil => simp [bumpCount]
  | cons p rest ih =>
    obtain ⟨s, n⟩ := p
    by_cases hs : s = t
    · subst hs
      simp [bumpCount]
    · simp [bumpCount, hs, ih]
      tauto

theorem mem_keys_foldl {x : String} (l : List String) :
    ∀ d, (x ∈ ((l.foldl (fun d t => bumpCount t d) d).map Prod.fst) ↔
      x ∈ d.map Prod.fst ∨ x ∈ l) := by
  induction l with
  | nil => intro d; simp
  | cons t rest ih =>
    intro d
    simp only [List.foldl_cons, ih (bumpCount t d), mem_keys_bumpCount,
      List.mem_cons]
    tauto

theorem mem_keys_typeDistribution {x : String} {l : List String} :
    x ∈ (typeDistribution l).map Prod.fst ↔ x ∈ l := by
  simpa [typeDistribution] using mem_keys_foldl (x := x) l []

theorem nodup_keys_bumpCount {t : String} {d : List (String × Nat)}
    (h : (d.map Prod.fst).Nodup) : ((bumpCount t d).map Prod.fst).Nodup := by
  induction d with
  | nil => simp [bumpCount]
  | cons p rest ih =>
    obtain ⟨s, n⟩ := p
    simp only [List.map_cons, List.nodup_cons] at h
    by_cases hs : s = t
    · subst hs
      simpa [bumpCount, List.nodup_cons] using h
    · simp only [bumpCount, if_neg hs, List.map_cons, List.nodup_cons]
      refine ⟨?_, ih h.2⟩
      rw [mem_keys_bumpCount]
      push_neg
      exact ⟨hs, h.1⟩

theorem nodup_keys_foldl (l : List String) :
    ∀ d, (d.map Prod.fst).Nodup →
      ((l.foldl (fun d t => bumpCount t d) d).map Prod.fst).Nodup := by
  induction l with
  | nil => intro d hd; simpa using hd
  | cons t rest ih =>
    intro d hd
    simpa only [List.foldl_cons] using ih (bumpCount t d) (nodup_keys_bumpCount hd)

theorem nodup_keys_typeDistribution (l : List String) :
    ((typeDistribution l).map Prod.fst).Nodup := by
  simpa [typeDistribution] using nodup_keys_foldl l [] (by simp)

/-- C5: for every successful ingestion, the keys of the equipment_types
mapping are exactly the distinct type labels present in the input
(case-sensitive, with no duplicate keys), and its counts sum to the total
row count N. -/
theorem c5_type_distribution (s : Store) (file : Option CsvFile)
    (ds : EquipmentDataset) (h : (upload_csv s file).1 = .created ds) :
    ∃ f, file = some f ∧
      (∀ t, t ∈ ds.equipment_types.map Prod.fst ↔ t ∈ f.rows.map (·.type)) ∧
      (ds.equipment_types.map Prod.fst).Nodup ∧
      (ds.equipment_types.map Prod.snd).sum = f.rows.length ∧
      ds.total_count = f.rows.length := by
  obtain ⟨f, rfl, h1, h2, hrows, hds, hst⟩ := upload_created_elim h
  subst hds
  refine ⟨f, rfl, ?_, ?_, ?_, rfl⟩
  · intro t
    show t ∈ (typeDistribution (f.rows.map (·.type))).map Prod.fst ↔ _
    exact mem_keys_typeDistribution
  · exact nodup_keys_typeDistribution _
  · show ((typeDistribution (f.rows.map (·.type))).map Prod.snd).sum = _
    simpa using typeDistribution_sum (f.rows.map (·.type))

/-- Witness for C5: the Pump/Valve upload satisfies the hypothesis and the
instantiated conclusion holds. -/
theorem c5_type_distribution_witness :
    (upload_csv emptyStore (some pumpValveCsv)).1 =
      .created (mkDataset emptyStore pumpValveCsv) ∧
    (∃ f, some pumpValveCsv = some f ∧
      (∀ t, t ∈ (mkDataset emptyStore pumpValveCsv).equipment_types.map Prod.fst ↔
        t ∈ f.rows.map (·.type)) ∧
      ((mkDataset emptyStore pumpValveCsv).equipment_types.map Prod.fst).Nodup ∧
      ((mkDataset emptyStore pumpValveCsv).equipment_types.map Prod.snd).sum =
        f.rows.length ∧
      (mkDataset emptyStore pumpValveCsv).total_count = f.rows.length) :=
  ⟨rfl, c5_type_distribution emptyStore (some pumpValveCsv)
    (mkDataset emptyStore pumpValveCsv) rfl⟩

/-! Lemmas about persistence, atomicity and retention. -/

theorem emptyStore_wf : emptyStore.wf := by
  refine ⟨List.Pairwise.nil, ?_, ?_, ?_⟩ <;> simp [emptyStore]

theorem upload_badRequest_state {s : Store} {file : Option CsvFile} {m : String}
    (h : (upload_csv s file).1 = .badRequest m) : (upload_csv s file).2 = s := by
  cases file with
  | none => rfl
  | some f =>
    cases h1 : strEndsWith f.filename ".csv" with
    | false => simp only [upload_csv]; rw [h1]; simp
    | true =>
    cases h2 : required_columns.all (fun c => f.columns.contains c) with
    | false => simp only [upload_csv]; rw [h1, h2]; simp
    | true =>
    cases hF : colMean (f.rows.map (·.flowrate)) with
    | error e => simp only [upload_csv]; rw [h1, h2, hF]; simp
    | ok vF =>
    cases hP : colMean (f.rows.map (·.pressure)) with
    | error e => simp only [upload_csv]; rw [h1, h2, hF, hP]; simp
    | ok vP =>
    cases hT : colMean (f.rows.map (·.temperature)) with
    | error e => simp only [upload_csv]; rw [h1, h2, hF, hP, hT]; simp
    | ok vT =>
    have hrows := rows_parse_of_colMeans hF hP hT
    rw [upload_ok s f h1 h2 hrows] at h
    simp at h

theorem mem_prune_ingest (s : Store) (f : CsvFile) :
    mkDataset s f ∈ (pruneOldDatasets (ingestState s f)).datasets := by
  by_cases hlen : 5 < (ingestState s f).datasets.length
  · have hform : (pruneOldDatasets (ingestState s f)).datasets =
        (ingestState s f).datasets.take 5 := by
      unfold pruneOldDatasets
      rw [if_pos hlen]
    rw [hform]
    show mkDataset s f ∈ (mkDataset s f :: s.datasets).take 5
    rw [List.take_succ_cons]
    exact List.mem_cons_self _ _
  · have hform : (pruneOldDatasets (ingestState s f)).datasets =
        (ingestState s f).datasets := by
      unfold pruneOldDatasets
      rw [if_neg hlen]
    rw [hform]
    exact List.mem_cons_self _ _

theorem filter_equip_prune (s : Store) (f : CsvFile) (hwf : s.wf) :
    (pruneOldDatasets (ingestState s f)).equipments.filter
      (fun e => e.dataset == s.nextId) = f.rows.map (mkEquip s.nextId) := by
  have hold : s.equipments.filter (fun e => e.dataset == s.nextId) = [] := by
    rw [List.filter_eq_nil_iff]
    intro e he
    have := hwf.2.2.2 e he
    simp
    omega
  have hnew : (f.rows.map (mkEquip s.nextId)).filter
      (fun e => e.dataset == s.nextId) = f.rows.map (mkEquip s.nextId) := by
    rw [List.filter_eq_self]
    intro e he
    rcases List.mem_map.mp he with ⟨r, hr, rfl⟩
    simp [mkEquip]
  by_cases hlen : 5 < (ingestState s f).datasets.length
  · have hform : (pruneOldDatasets (ingestState s f)).equipments =
        (ingestState s f).equipments.filter
          (fun e => ((ingestState s f).datasets.drop 5).all
            (fun d => d.id != e.dataset)) := by
      unfold pruneOldDatasets
      rw [if_pos hlen]
    have hdrop : (ingestState s f).datasets.drop 5 = s.datasets.drop 4 := by
      show (mkDataset s f :: s.datasets).drop 5 = _
      rw [List.drop_succ_cons]
    have hkeepnew : (f.rows.map (mkEquip s.nextId)).filter
        (fun e => ((ingestState s f).datasets.drop 5).all
          (fun d => d.id != e.dataset)) = f.rows.map (mkEquip s.nextId) := by
      rw [List.filter_eq_self]
      intro e he
      rcases List.mem_map.mp he with ⟨r, hr, rfl⟩
      rw [hdrop, List.all_eq_true]
      intro d hd
      have hmem : d ∈ s.datasets := List.drop_subset 4 s.datasets hd
      have := hwf.2.2.1 d hmem
      simp [mkEquip]
      omega
    have holdkeep : ((s.equipments.filter
        (fun e => ((ingestState s f).datasets.drop 5).all
          (fun d => d.id != e.dataset))).filter
        (fun e => e.dataset == s.nextId)) = [] := by
      rw [List.filter_eq_nil_iff]
      intro e he
      have hmem : e ∈ s.equipments := (List.mem_filter.mp he).1
      have := hwf.2.2.2 e hmem
      simp
      omega
    rw [hform]
    show ((s.equipments ++ f.rows.map (mkEquip s.nextId)).filter
      (fun e => ((ingestState s f).datasets.drop 5).all
        (fun d => d.id != e.dataset))).filter (fun e => e.dataset == s.nextId) =
      f.rows.map (mkEquip s.nextId)
    rw [List.filter_append, List.filter_append, holdkeep, hkeepnew, hnew]
    simp
  · have hform : (pruneOldDatasets (ingestState s f)).equipments =
        (ingestState s f).equipments := by
      unfold pruneOldDatasets
      rw [if_neg hlen]
    rw [hform]
    show (s.equipments ++ f.rows.map (mkEquip s.nextId)).filter
      (fun e => e.dataset == s.nextId) = f.rows.map (mkEquip s.nextId)
    rw [List.filter_append, hold, hnew]
    simp

/-- C3: ingestion is atomic with respect to its reachable failures: every
failing upload returns an error and leaves the store exactly as it was,
while every successful upload persists the dataset row together with all N
of its equipment rows.  A row-level coercion failure inside the
record-building loop is unreachable, because the pandas column means are
computed first and fail on any non-numeric column before anything is
persisted. -/
theorem c3_ingestion_atomic (s : Store) (file : Option CsvFile) (hwf : s.wf) :
    (∃ m, (upload_csv s file).1 = .badRequest m ∧ (upload_csv s file).2 = s) ∨
    (∃ f ds, file = some f ∧ (upload_csv s file).1 = .created ds ∧
      ds ∈ (upload_csv s file).2.datasets ∧
      (upload_csv s file).2.equipments.filter (fun e => e.dataset == ds.id) =
        f.rows.map (mkEquip ds.id) ∧
      ds.total_count = f.rows.length) := by
  cases hres : (upload_csv s file).1 with
  | badRequest m => exact Or.inl ⟨m, rfl, upload_badRequest_state hres⟩
  | created ds =>
    right
    obtain ⟨f, hfile, h1, h2, hrows, hds, hst⟩ := upload_created_elim hres
    refine ⟨f, ds, hfile, rfl, ?_, ?_, ?_⟩
    · rw [hst, hds]
      exact mem_prune_ingest s f
    · rw [hst, hds]
      show (pruneOldDatasets (ingestState s f)).equipments.filter
        (fun e => e.dataset == s.nextId) = f.rows.map (mkEquip s.nextId)
      exact filter_equip_prune s f hwf
    · rw [hds]
      rfl

/-- Witness for C3: the Pump/Valve upload into the empty store satisfies the
well-formedness hypothesis and the instantiated conclusion holds. -/
theorem c3_ingestion_atomic_witness :
    emptyStore.wf ∧
    ((∃ m, (upload_csv emptyStore (some pumpValveCsv)).1 = .badRequest m ∧
        (upload_csv emptyStore (some pumpValveCsv)).2 = emptyStore) ∨
     (∃ f ds, some pumpValveCsv = some f ∧
        (upload_csv emptyStore (some pumpValveCsv)).1 = .created ds ∧
        ds ∈ (upload_csv emptyStore (some pumpValveCsv)).2.datasets ∧
        (upload_csv emptyStore (some pumpValveCsv)).2.equipments.filter
          (fun e => e.dataset == ds.id) = f.rows.map (mkEquip ds.id) ∧
        ds.total_count = f.rows.length)) :=
  ⟨emptyStore_wf,
    c3_ingestion_atomic emptyStore (some pumpValveCsv) emptyStore_wf⟩

/-- C2: after every successful ingestion the store holds at most five
datasets (exactly five when more than five briefly existed), the kept ones
are the five most recent of the inserted sequence, everything older is
deleted, and listing recent datasets returns the whole retained collection
ordered most-recent-first. -/
theorem c2_retention (s : Store) (file : Option CsvFile) (ds : EquipmentDataset)
    (hwf : s.wf) (h : (upload_csv s file).1 = .created ds) :
    (upload_csv s file).2.datasets = (ds :: s.datasets).take 5 ∧
    (upload_csv s file).2.datasets.length ≤ 5 ∧
    (5 ≤ s.datasets.length → (upload_csv s file).2.datasets.length = 5) ∧
    (upload_csv s file).2.datasets.Pairwise
      (fun a b => b.uploaded_at < a.uploaded_at) ∧
    history_list ((upload_csv s file).2) = (upload_csv s file).2.datasets ∧
    (∀ d ∈ (ds :: s.datasets).drop 5, ∀ k ∈ (upload_csv s file).2.datasets,
      d.uploaded_at < k.uploaded_at) := by
  obtain ⟨f, hfile, h1, h2, hrows, hds, hst⟩ := upload_created_elim h
  have hsort : (ds :: s.datasets).Pairwise
      (fun a b => b.uploaded_at < a.uploaded_at) := by
    refine List.pairwise_cons.mpr ⟨?_, hwf.1⟩
    intro b hb
    have hb' := hwf.2.1 b hb
    rw [hds]
    exact hb'
  have hL : (ingestState s f).datasets = ds :: s.datasets := by
    rw [hds]
    rfl
  by_cases hlen : 5 < (ds :: s.datasets).length
  · have hlen' : 5 < (ingestState s f).datasets.length := by rw [hL]; exact hlen
    have hd2 : (upload_csv s file).2.datasets = (ds :: s.datasets).take 5 := by
      rw [hst]
      have : (pruneOldDatasets (ingestState s f)).datasets =
          (ingestState s f).datasets.take 5 := by
        unfold pruneOldDatasets
        rw [if_pos hlen']
      rw [this, hL]
    have hcross := List.pairwise_append.mp
      (by rw [List.take_append_drop 5 (ds :: s.datasets)]; exact hsort)
    refine ⟨hd2, ?_, ?_, ?_, ?_, ?_⟩
    · rw [hd2, List.length_take]
      omega
    · intro _
      rw [hd2, List.length_take, List.length_cons]
      simp only [List.length_cons] at hlen
      omega
    · rw [hd2]
      exact hsort.sublist (List.take_sublist 5 _)
    · show (upload_csv s file).2.datasets.take 5 = _
      rw [hd2, List.take_take, min_self]
    · intro d hd k hk
      rw [hd2] at hk
      exact hcross.2.2 k hk d hd
  · have hlen' : ¬ 5 < (ingestState s f).datasets.length := by
      rw [hL]; exact hlen
    have hle : (ds :: s.datasets).length ≤ 5 := by omega
    have hd2 : (upload_csv s file).2.datasets = ds :: s.datasets := by
      rw [hst]
      have : (pruneOldDatasets (ingestState s f)).datasets =
          (ingestState s f).datasets := by
        unfold pruneOldDatasets
        rw [if_neg hlen']
      rw [this, hL]
    refine ⟨?_, ?_, ?_, ?_, ?_, ?_⟩
    · rw [hd2, List.take_of_length_le hle]
    · rw [hd2]
      omega
    · intro h5
      exfalso
      simp only [List.length_cons] at hle
      omega
    · rw [hd2]
      exact hsort
    · show (upload_csv s file).2.datasets.take 5 = _
      rw [hd2, List.take_of_length_le hle]
    · intro d hd k hk
      rw [List.drop_eq_nil_of_le hle] at hd
      cases hd

/-- Witness for C2: the Pump/Valve upload into the empty store satisfies
both hypotheses and the instantiated conclusion holds. -/
theorem c2_retention_witness :
    emptyStore.wf ∧
    (upload_csv emptyStore (some pumpValveCsv)).1 =
      .created (mkDataset emptyStore pumpValveCsv) ∧
    ((upload_csv emptyStore (some pumpValveCsv)).2.datasets =
      (mkDataset emptyStore pumpValveCsv :: emptyStore.datasets).take 5 ∧
    (upload_csv emptyStore (some pumpValveCsv)).2.datasets.length ≤ 5 ∧
    (5 ≤ emptyStore.datasets.length →
      (upload_csv emptyStore (some pumpValveCsv)).2.datasets.length = 5) ∧
    (upload_csv emptyStore (some pumpValveCsv)).2.datasets.Pairwise
      (fun a b => b.uploaded_at < a.uploaded_at) ∧
    history_list ((upload_csv emptyStore (some pumpValveCsv)).2) =
      (upload_csv emptyStore (some pumpValveCsv)).2.datasets ∧
    (∀ d ∈ (mkDataset emptyStore pumpValveCsv :: emptyStore.datasets).drop 5,
      ∀ k ∈ (upload_csv emptyStore (some pumpValveCsv)).2.datasets,
      d.uploaded_at < k.uploaded_at)) :=
  ⟨emptyStore_wf, rfl,
    c2_retention emptyStore (some pumpValveCsv)
      (mkDataset emptyStore pumpValveCsv) emptyStore_wf rfl⟩

/-- C6: ingesting a CSV file whose header is missing any required column
fails with the missing-columns validation error, whose message names every
required column (in particular each missing one), and persists nothing: the
store is returned unchanged. -/
theorem c6_missing_columns (s : Store) (f : CsvFile)
    (hcsv : strEndsWith f.filename ".csv" = true)
    (hmiss : required_columns.all (fun c => f.columns.contains c) = false) :
    upload_csv s (some f) =
      (.badRequest ("CSV must contain columns: " ++
        String.intercalate ", " required_columns), s) ∧
    (∀ c ∈ required_columns, ∃ p q,
      "CSV must contain columns: " ++ String.intercalate ", " required_columns
        = p ++ (c ++ q)) := by
  constructor
  · simp only [upload_csv]
    rw [hcsv, hmiss]
    simp
  · intro c hc
    simp only [required_columns, List.mem_cons, List.not_mem_nil, or_false] at hc
    rcases hc with rfl | rfl | rfl | rfl | rfl
    · exact ⟨"CSV must contain columns: ",
        ", Type, Flowrate, Pressure, Temperature", by decide⟩
    · exact ⟨"CSV must contain columns: Equipment Name, ",
        ", Flowrate, Pressure, Temperature", by decide⟩
    · exact ⟨"CSV must contain columns: Equipment Name, Type, ",
        ", Pressure, Temperature", by decide⟩
    · exact ⟨"CSV must contain columns: Equipment Name, Type, Flowrate, ",
        ", Temperature", by decide⟩
    · exact ⟨"CSV must contain columns: Equipment Name, Type, Flowrate, Pressure, ",
        "", by decide⟩

/-- Witness for C6: a csv-named file whose header only has the Type column
satisfies the hypotheses and the instantiated conclusion holds. -/
theorem c6_missing_columns_witness :
    strEndsWith badColumnsCsv.filename ".csv" = true ∧
    required_columns.all (fun c => badColumnsCsv.columns.contains c) = false ∧
    (upload_csv emptyStore (some badColumnsCsv) =
      (.badRequest ("CSV must contain columns: " ++
        String.intercalate ", " required_columns), emptyStore) ∧
     (∀ c ∈ required_columns, ∃ p q,
       "CSV must contain columns: " ++ String.intercalate ", " required_columns
         = p ++ (c ++ q))) :=
  ⟨by decide, by decide,
    c6_missing_columns emptyStore badColumnsCsv (by decide) (by decide)⟩

/-! Lemmas about the row-parse error message. -/

theorem concatAll_split {c : String} {cells : List String} (hc : c ∈ cells) :
    ∃ p q, concatAll cells = p ++ (c ++ q) := by
  induction cells with
  | nil => cases hc
  | cons x rest ih =>
    rcases List.mem_cons.mp hc with rfl | hmem
    · exact ⟨"", concatAll rest, by simp [concatAll]⟩
    · rcases ih hmem with ⟨p, q, hpq⟩
      exact ⟨x ++ p, q, by simp [concatAll, hpq, String.append_assoc]⟩

theorem colMean_error_of_bad {cells : List String} {c : String}
    (hc : c ∈ cells) (hbad : parseFloat c = none) :
    colMean cells = .error
      ("Could not convert string '" ++ concatAll cells ++ "' to numeric") := by
  have hall : cells.all (fun x => (parseFloat x).isSome) = false := by
    rcases Bool.eq_false_or_eq_true (cells.all fun x => (parseFloat x).isSome)
      with h | h
    · exfalso
      have hx := List.all_eq_true.mp h c hc
      rw [hbad] at hx
      simp at hx
    · exact h
  simp [colMean, hall]

/-- C7: the four upload failure kinds (missing file, wrong extension,
missing columns, row-level parse error) produce pairwise distinct error
messages, so callers can distinguish them; a file whose name does not end in
.csv is rejected before any of its content is examined; and a non-numeric
flow rate cell produces the processing error carrying the offending cell
text, with the store unchanged. -/
theorem c7_error_kinds :
    (∀ e : String,
      ("No file provided" : String) ≠ "File must be a CSV" ∧
      ("No file provided" : String) ≠
        "CSV must contain columns: " ++ String.intercalate ", " required_columns ∧
      ("File must be a CSV" : String) ≠
        "CSV must contain columns: " ++ String.intercalate ", " required_columns ∧
      "Error processing CSV: " ++ e ≠ "No file provided" ∧
      "Error processing CSV: " ++ e ≠ "File must be a CSV" ∧
      "Error processing CSV: " ++ e ≠
        "CSV must contain columns: " ++ String.intercalate ", " required_columns) ∧
    (∀ s : Store, upload_csv s none = (.badRequest "No file provided", s)) ∧
    (∀ (s : Store) (name : String) (cols : List String) (rows : List CsvRow),
      strEndsWith name ".csv" = false →
      upload_csv s (some ⟨name, cols, rows⟩) =
        (.badRequest "File must be a CSV", s)) ∧
    (∀ (s : Store) (f : CsvFile) (r : CsvRow),
      strEndsWith f.filename ".csv" = true →
      required_columns.all (fun c => f.columns.contains c) = true →
      r ∈ f.rows → parseFloat r.flowrate = none →
      ∃ p q, upload_csv s (some f) =
        (.badRequest ("Error processing CSV: " ++
          ("Could not convert string '" ++ (p ++ (r.flowrate ++ q)) ++
            "' to numeric")), s)) := by
  refine ⟨?_, ?_, ?_, ?_⟩
  · intro e
    refine ⟨by decide, by decide, by decide, ?_, ?_, ?_⟩
    · intro heq
      have hl := congrArg String.length heq
      rw [String.length_append] at hl
      have h22 : ("Error processing CSV: " : String).length = 22 := by decide
      have h16 : ("No file provided" : String).length = 16 := by decide
      rw [h22, h16] at hl
      omega
    · intro heq
      have hl := congrArg String.length heq
      rw [String.length_append] at hl
      have h22 : ("Error processing CSV: " : String).length = 22 := by decide
      have h18 : ("File must be a CSV" : String).length = 18 := by decide
      rw [h22, h18] at hl
      omega
    · intro heq
      have hd := congrArg (fun t => t.data.take 22) heq
      simp only [String.data_append] at hd
      rw [List.take_left'
        (show ("Error processing CSV: " : String).data.length = 22 by decide)] at hd
      exact absurd hd (by decide)
  · intro s
    rfl
  · intro s name cols rows hfalse
    simp [upload_csv, hfalse]
  · intro s f r h1 h2 hr hbad
    have hmem : r.flowrate ∈ f.rows.map (·.flowrate) :=
      List.mem_map_of_mem (·.flowrate) hr
    obtain ⟨p, q, hpq⟩ := concatAll_split hmem
    have herr := colMean_error_of_bad hmem hbad
    refine ⟨p, q, ?_⟩
    simp only [upload_csv]
    rw [h1, h2, herr, hpq]
    simp

/-- Witness for C7: the CSV whose single row has the non-numeric flow rate
cell "abc" satisfies the hypotheses of the row-parse part and the
instantiated conclusion holds. -/
theorem c7_error_kinds_witness :
    strEndsWith badCellCsv.filename ".csv" = true ∧
    required_columns.all (fun c => badCellCsv.columns.contains c) = true ∧
    badCellRow ∈ badCellCsv.rows ∧
    parseFloat badCellRow.flowrate = none ∧
    (∃ p q, upload_csv emptyStore (some badCellCsv) =
      (.badRequest ("Error processing CSV: " ++
        ("Could not convert string '" ++ (p ++ (badCellRow.flowrate ++ q)) ++
          "' to numeric")), emptyStore)) :=
  ⟨by decide, by decide, by decide, by decide,
    c7_error_kinds.2.2.2 emptyStore badCellCsv badCellRow (by decide) (by decide)
      (by decide) (by decide)⟩

/-! Lemmas about the reporting projector. -/

theorem pySlice_length_le (n : Nat) (s : String) : (pySlice n s).length ≤ n := by
  show (s.data.take n).length ≤ n
  rw [List.length_take]
  omega

theorem equipment_items_length (s : Store) (i : Nat) :
    (equipment_items s i).length =
      (s.equipments.filter (fun e => e.dataset == i)).length :=
  (List.perm_insertionSort _ _).length_eq

/-- C8: for every stored dataset, the report's detail listing consists of the
header row followed by exactly min(20, total_count) data rows, one per
equipment record of the alphabetically first twenty, with the name truncated
to 20 characters, the type truncated to 15, and the numeric cells formatted
to one decimal place, while the displayed means are the stored aggregates
rendered to two decimal places and the metadata section carries the stored
name, timestamp and total. -/
theorem c8_report_shape (s : Store) (i : Nat) (ds : EquipmentDataset)
    (rpt : PdfReport) (hcons : s.consistent)
    (hget : get_dataset s i = some ds)
    (hr : (generate_pdf s i).1 = some rpt) :
    rpt.equipment_rows = ["Name", "Type", "Flowrate", "Pressure", "Temp"] ::
      ((equipment_items s i).take 20).map pdfRow ∧
    rpt.equipment_rows.tail.length = min 20 ds.total_count ∧
    (∀ row ∈ rpt.equipment_rows.tail, ∃ e ∈ equipment_items s i,
      row = pdfRow e ∧ (pdfRow e).length = 5 ∧
      (pySlice 20 e.equipment_name).length ≤ 20 ∧
      (pySlice 15 e.type).length ≤ 15) ∧
    rpt.stats = [["Metric", "Average Value"],
      ["Flowrate", fmtPF 2 ds.avg_flowrate],
      ["Pressure", fmtPF 2 ds.avg_pressure],
      ["Temperature", fmtPF 2 ds.avg_temperature]] ∧
    rpt.info = [["Dataset Name:", ds.name],
      ["Upload Date:", toString ds.uploaded_at],
      ["Total Equipment:", toString ds.total_count]] := by
  simp only [generate_pdf, hget, Option.some.injEq] at hr
  subst hr
  have hfind : s.datasets.find? (fun d => d.id == i) = some ds := hget
  have hdsmem : ds ∈ s.datasets := List.mem_of_find?_eq_some hfind
  have hidi : ds.id = i := by simpa using List.find?_some hfind
  have hcount : (s.equipments.filter (fun e => e.dataset == i)).length =
      ds.total_count := by
    rw [← hidi]
    exact hcons ds hdsmem
  refine ⟨rfl, ?_, ?_, rfl, rfl⟩
  · show (((equipment_items s i).take 20).map pdfRow).length = _
    rw [List.length_map, List.length_take, equipment_items_length, hcount]
  · intro row hrow
    simp only [List.tail_cons, List.mem_map] at hrow
    obtain ⟨e, he, rfl⟩ := hrow
    exact ⟨e, List.mem_of_mem_take he, rfl, rfl,
      pySlice_length_le 20 e.equipment_name, pySlice_length_le 15 e.type⟩

/-- Witness for C8: the one-dataset store with zero equipment records is
consistent and the instantiated conclusion holds for its generated report. -/
theorem c8_report_shape_witness :
    demoStore.consistent ∧
    get_dataset demoStore 1 = some demoDataset ∧
    (generate_pdf demoStore 1).1 = some demoReport ∧
    (demoReport.equipment_rows = ["Name", "Type", "Flowrate", "Pressure", "Temp"] ::
      ((equipment_items demoStore 1).take 20).map pdfRow ∧
    demoReport.equipment_rows.tail.length = min 20 demoDataset.total_count ∧
    (∀ row ∈ demoReport.equipment_rows.tail, ∃ e ∈ equipment_items demoStore 1,
      row = pdfRow e ∧ (pdfRow e).length = 5 ∧
      (pySlice 20 e.equipment_name).length ≤ 20 ∧
      (pySlice 15 e.type).length ≤ 15) ∧
    demoReport.stats = [["Metric", "Average Value"],
      ["Flowrate", fmtPF 2 demoDataset.avg_flowrate],
      ["Pressure", fmtPF 2 demoDataset.avg_pressure],
      ["Temperature", fmtPF 2 demoDataset.avg_temperature]] ∧
    demoReport.info = [["Dataset Name:", demoDataset.name],
      ["Upload Date:", toString demoDataset.uploaded_at],
      ["Total Equipment:", toString demoDataset.total_count]]) :=
  ⟨by decide, by decide, by decide,
    c8_report_shape demoStore 1 demoDataset demoReport (by decide) (by decide)
      (by decide)⟩

/-- C9: report generation never mutates stored data: the store after
generating a report is the one it started from, so every read — the dataset
row with its aggregates, its equipment records, and the recent history — is
unchanged. -/
theorem c9_report_frame (s : Store) (i : Nat) :
    (generate_pdf s i).2 = s ∧
    get_dataset ((generate_pdf s i).2) i = get_dataset s i ∧
    equipment_items ((generate_pdf s i).2) i = equipment_items s i ∧
    history_list ((generate_pdf s i).2) = history_list s := by
  have h : (generate_pdf s i).2 = s := by
    cases hg : get_dataset s i with
    | none => simp [generate_pdf, hg]
    | some d => simp [generate_pdf, hg]
  exact ⟨h, by rw [h], by rw [h], by rw [h]⟩

/-- C10: whenever a dataset's equipment records are read back — through the
serializer or through report generation — they come out ordered
alphabetically by equipment name (the model's default ordering), as a
permutation of the stored rows rather than in upload row order, and the
report's first twenty rows are the alphabetically first twenty. -/
theorem c10_alphabetical_order (s : Store) (i : Nat) :
    (equipment_items s i).Pairwise nameOrder ∧
    (equipment_items s i).Perm (s.equipments.filter (fun e => e.dataset == i)) ∧
    (∀ ds items, retrieve_dataset s i = some (ds, items) →
      items = equipment_items s i) ∧
    (∀ rpt, (generate_pdf s i).1 = some rpt →
      rpt.equipment_rows.tail = ((equipment_items s i).take 20).map pdfRow) := by
  refine ⟨?_, List.perm_insertionSort _ _, ?_, ?_⟩
  · haveI htot : IsTotal Equipment nameOrder := ⟨fun a b => le_total _ _⟩
    haveI htr : IsTrans Equipment nameOrder := ⟨fun _ _ _ hab hbc => le_trans hab hbc⟩
    exact List.sorted_insertionSort _ _
  · intro ds items h
    cases hg : get_dataset s i with
    | none => simp [retrieve_dataset, hg] at h
    | some d =>
      simp [retrieve_dataset, hg, Prod.ext_iff] at h
      exact h.2.symm
  · intro rpt h
    cases hg : get_dataset s i with
    | none => simp [generate_pdf, hg] at h
    | some d =>
      simp only [generate_pdf, hg, Option.some.injEq] at h
      subst h
      rfl

/-- Witness for C10: the one-record store discharges both read-back
hypotheses and the instantiated conclusions hold. -/
theorem c10_alphabetical_order_witness :
    retrieve_dataset demoStoreOne 1 = some (demoDatasetOne, [demoEquip]) ∧
    (generate_pdf demoStoreOne 1).1 = some demoReportOne ∧
    [demoEquip] = equipment_items demoStoreOne 1 ∧
    demoReportOne.equipment_rows.tail =
      ((equipment_items demoStoreOne 1).take 20).map pdfRow :=
  ⟨rfl, rfl,
    (c10_alphabetical_order demoStoreOne 1).2.2.1 demoDatasetOne [demoEquip] rfl,
    (c10_alphabetical_order demoStoreOne 1).2.2.2 demoReportOne rfl⟩

end ParamVis
